import Mathlib

/-!
Verification of `src/packs/pack03_os_edge/aviation/rtos_partition/template.c`.

The translation unit defines two functions:

* `SafetyTask(void *pvParameters)` — a `for (;;)` loop whose body is a
  comment and a single call `vTaskDelay(pdMS_TO_TICKS(1000))`;
* `main(void)` — `xTaskCreate(SafetyTask, "SafetyTask", 1024, NULL, 5, NULL);`
  then `vTaskStartScheduler();` then `while (1) {}` then `return 0;`.

We embed each function as a trace of observable primitive actions.  The
action vocabulary includes every primitive the specification mentions
(queue operations, command validation, inter-task communication, locking,
cancellation, error handling, stdio output, task creation, scheduler
start, delays), so that absence claims are statements about the embedded
traces rather than about an impoverished alphabet.  `main` additionally
gets a small-step control-flow semantics to settle reachability of its
final `return 0;`.
-/

namespace RtosPartition

/-- Model of a C `void *` value: the null pointer or some address. -/
inductive PtrArg where
  | null
  | addr (a : Nat)
deriving DecidableEq, Repr

/-- Task entry points defined in the translation unit: only `SafetyTask`. -/
inductive TaskEntry where
  | safetyTask
deriving DecidableEq, Repr

/-- Tick rate of the RTOS collaborator.  The FreeRTOS headers are external
to the repository (the spec names the RTOS kernel as an external
collaborator); we model the common default of 1000 ticks per second. -/
def configTICK_RATE_HZ : Nat := 1000

/-- The FreeRTOS `pdMS_TO_TICKS` macro of the external collaborator:
milliseconds to ticks, `(ms * configTICK_RATE_HZ) / 1000`. -/
def pdMS_TO_TICKS (ms : Nat) : Nat := ms * configTICK_RATE_HZ / 1000

/-- Observable primitive actions a task or `main` can perform in this
model.  The vocabulary covers every primitive named by the spec and the
claims; the C code only ever produces `delay`, `taskCreate` and
`startScheduler`. -/
inductive Action where
  | delay (ticks : Nat)
  | acceptCommand (signed : Bool)
  | executeCommand
  | logDiscard
  | queueOp
  | validateCommand
  | interTaskComm
  | lockOp
  | cancelOp
  | errorHandling
  | stdioOutput (s : String)
  | taskCreate (entry : TaskEntry) (name : String) (stackDepth : Nat)
      (param : PtrArg) (priority : Nat) (handleOut : PtrArg)
  | startScheduler
deriving DecidableEq, Repr

/-- Actions performed by one iteration of the `for (;;)` body of
`SafetyTask` (template.c lines 11-14): the body is a comment followed by a
single `vTaskDelay(pdMS_TO_TICKS(1000))`.  The `pvParameters` argument is
in scope but never read, so the list does not depend on it. -/
def SafetyTaskIter (pvParameters : PtrArg) : List Action :=
  [Action.delay (pdMS_TO_TICKS 1000)]

/-- The guard of the `for (;;)` loop of `SafetyTask` at a given iteration:
the empty for-condition, which C defines to be true. -/
def SafetyTaskLoopGuard (iteration : Nat) : Bool := true

/-- `SafetyTask` returns only if its sole loop exits, i.e. the guard is
false at some iteration; the body contains no `return` or `break`. -/
def SafetyTaskReturns : Prop := ∃ n, SafetyTaskLoopGuard n = false

/-- Actions performed by `SafetyTask` in iteration `i` of its loop, given
the `pvParameters` it was started with. -/
def SafetyTaskTrace (pvParameters : PtrArg) (i : Nat) : List Action :=
  SafetyTaskIter pvParameters

/-- The kernel calls `main` issues, in program order (template.c lines
18-19): `xTaskCreate(SafetyTask, "SafetyTask", 1024, NULL, 5, NULL)` and
then `vTaskStartScheduler()`.  The result of `xTaskCreate` is bound to
nothing and never tested, so the list does not depend on it. -/
def mainKernelCalls (xTaskCreateResult : Bool) : List Action :=
  [Action.taskCreate TaskEntry.safetyTask "SafetyTask" 1024 PtrArg.null 5
     PtrArg.null,
   Action.startScheduler]

/-- Program points of `main` (template.c lines 17-22). -/
inductive MainPC where
  | atCreate
  | atStartScheduler
  | inWhileLoop
  | atReturn
  | done
deriving DecidableEq, Repr

/-- One control-flow step of `main`.  The environment supplies the result
of `xTaskCreate` and whether `vTaskStartScheduler` returns; the code
ignores the former, and if the latter returns, control falls into
`while (1) {}`, whose guard is the constant 1 and whose body is empty.
`atReturn` models the `return 0;` statement. -/
def mainStep (xTaskCreateResult : Bool) (schedulerReturns : Bool) :
    MainPC → MainPC
  | MainPC.atCreate => MainPC.atStartScheduler
  | MainPC.atStartScheduler =>
      if schedulerReturns then MainPC.inWhileLoop else MainPC.atStartScheduler
  | MainPC.inWhileLoop => MainPC.inWhileLoop
  | MainPC.atReturn => MainPC.done
  | MainPC.done => MainPC.done

/-- Control state of `main` after `n` steps from its entry point. -/
def mainRun (xTaskCreateResult schedulerReturns : Bool) : Nat → MainPC
  | 0 => MainPC.atCreate
  | n + 1 =>
      mainStep xTaskCreateResult schedulerReturns
        (mainRun xTaskCreateResult schedulerReturns n)

/-- An action is one of the coordination or error-handling primitives the
spec names: queue operation, command validation, inter-task communication,
locking, cancellation, or error handling. -/
def Action.isCoordPrimitive : Action → Bool
  | Action.queueOp => true
  | Action.validateCommand => true
  | Action.interTaskComm => true
  | Action.lockOp => true
  | Action.cancelOp => true
  | Action.errorHandling => true
  | _ => false

/-- An action is an output through stdio. -/
def Action.isStdioOutput : Action → Bool
  | Action.stdioOutput _ => true
  | _ => false

/-- An action is a task creation. -/
def Action.isTaskCreate : Action → Bool
  | Action.taskCreate _ _ _ _ _ _ => true
  | _ => false

/-- An action is an acceptance of a command. -/
def Action.isAcceptCommand : Action → Bool
  | Action.acceptCommand _ => true
  | _ => false

/-- A control state of `main` at or past its `return 0;` statement. -/
def MainPC.reachedReturn : MainPC → Bool
  | MainPC.atReturn => true
  | MainPC.done => true
  | _ => false

/-- Total stdio output of a finite list of actions. -/
def traceOutput : List Action → String
  | [] => ""
  | Action.stdioOutput s :: rest => s ++ traceOutput rest
  | _ :: rest => traceOutput rest

/-- Every iteration trace of `SafetyTask` is the single fixed delay. -/
theorem safetyTaskTrace_eq (pv : PtrArg) (i : Nat) :
    SafetyTaskTrace pv i = [Action.delay (pdMS_TO_TICKS 1000)] := rfl

/-- C1: In every execution of `SafetyTask`, no command-acceptance action of
any signedness ever occurs in any iteration; in particular no unsigned
command (signedness false) is ever accepted.  The contract holds vacuously,
since the task body accepts no commands at all. -/
theorem C1_no_unsigned_command_accepted :
    ∀ (pv : PtrArg) (i : Nat) (s : Bool),
      List.count (Action.acceptCommand s) (SafetyTaskTrace pv i) = 0 ∧
      (SafetyTaskTrace pv i).all (fun a => ! a.isAcceptCommand) = true := by
  intro pv i s
  constructor
  · simp [SafetyTaskTrace, SafetyTaskIter, List.count_cons]
  · simp [SafetyTaskTrace, SafetyTaskIter, Action.isAcceptCommand]

/-- C2: `SafetyTask` is an infinite loop: its loop guard is true at every
iteration (so the loop never exits and the task never returns — formally,
`SafetyTaskReturns` is equivalent to `False`), and every iteration performs
exactly the same single action, the fixed delay, with no branching. -/
theorem C2_infinite_loop_identical_iterations :
    (∀ n, SafetyTaskLoopGuard n = true) ∧
    (SafetyTaskReturns ↔ False) ∧
    (∀ pv i, SafetyTaskTrace pv i = [Action.delay (pdMS_TO_TICKS 1000)]) ∧
    (∀ pv i j, SafetyTaskTrace pv i = SafetyTaskTrace pv j) := by
  refine ⟨fun n => rfl, ?_, fun pv i => rfl, fun pv i j => rfl⟩
  constructor
  · rintro ⟨n, hn⟩
    exact absurd hn (by simp [SafetyTaskLoopGuard])
  · intro h
    exact h.elim

/-- C3: No action of `SafetyTask` (in any iteration, for any parameter) and
no kernel call of `main` (for any `xTaskCreate` result) is a queue
operation, command validation, inter-task communication, locking,
cancellation, or error-handling primitive. -/
theorem C3_no_coordination_primitives :
    (∀ pv i, (SafetyTaskTrace pv i).all (fun a => ! a.isCoordPrimitive) = true) ∧
    (∀ r, (mainKernelCalls r).all (fun a => ! a.isCoordPrimitive) = true) := by
  constructor
  · intro pv i
    simp [SafetyTaskTrace, SafetyTaskIter, Action.isCoordPrimitive]
  · intro r
    simp [mainKernelCalls, Action.isCoordPrimitive]

/-- C4 counterexample: at the concrete input `pvParameters = NULL`,
iteration 0, the action list of `SafetyTask` is exactly one delay of 1000
ticks; it contains no dequeue (queue operation) and no validation action,
refuting the claim that `SafetyTask` dequeues and validates command
messages. -/
theorem C4_counterexample :
    SafetyTaskTrace PtrArg.null 0 = [Action.delay 1000] ∧
    List.count Action.queueOp (SafetyTaskTrace PtrArg.null 0) = 0 ∧
    List.count Action.validateCommand (SafetyTaskTrace PtrArg.null 0) = 0 ∧
    List.count Action.executeCommand (SafetyTaskTrace PtrArg.null 0) = 0 ∧
    List.count Action.logDiscard (SafetyTaskTrace PtrArg.null 0) = 0 := by
  decide

/-- C4 (amended): as implemented, `SafetyTask` is a placeholder that
performs no dequeue, validation, execution or discard-logging action in any
iteration; its only per-iteration action is the fixed delay
`pdMS_TO_TICKS(1000)`.  The dequeue-validate-execute behaviour exists only
as a comment. -/
theorem C4_amended_placeholder_no_validation :
    ∀ pv i,
      SafetyTaskTrace pv i = [Action.delay (pdMS_TO_TICKS 1000)] ∧
      List.count Action.queueOp (SafetyTaskTrace pv i) = 0 ∧
      List.count Action.validateCommand (SafetyTaskTrace pv i) = 0 ∧
      List.count Action.executeCommand (SafetyTaskTrace pv i) = 0 ∧
      List.count Action.logDiscard (SafetyTaskTrace pv i) = 0 := by
  intro pv i
  refine ⟨rfl, ?_, ?_, ?_, ?_⟩ <;>
    simp [SafetyTaskTrace, SafetyTaskIter, List.count_cons]

/-- C5: `main` issues exactly one task creation — entry `SafetyTask`, name
"SafetyTask", stack 1024, NULL parameter, priority 5 (and NULL handle
out-parameter) — followed by the scheduler start, in that order, for every
result of `xTaskCreate`; and `SafetyTask` itself performs no task creation
in any iteration, so no other task is ever created. -/
theorem C5_single_task_creation_before_scheduler :
    ∀ r,
      mainKernelCalls r =
        [Action.taskCreate TaskEntry.safetyTask "SafetyTask" 1024 PtrArg.null
           5 PtrArg.null,
         Action.startScheduler] ∧
      ((mainKernelCalls r).filter (fun a => a.isTaskCreate)).length = 1 ∧
      (∀ pv i, (SafetyTaskTrace pv i).all (fun a => ! a.isTaskCreate) = true) := by
  intro r
  refine ⟨rfl, by simp [mainKernelCalls, Action.isTaskCreate], ?_⟩
  intro pv i
  simp [SafetyTaskTrace, SafetyTaskIter, Action.isTaskCreate]

/-- C6: in every iteration `SafetyTask` performs the single delay
`pdMS_TO_TICKS(1000)`; the delay argument is the same in all iterations,
and at the modelled tick rate it equals 1000 ticks for 1000 ms. -/
theorem C6_fixed_period_delay :
    (∀ pv i, SafetyTaskTrace pv i = [Action.delay (pdMS_TO_TICKS 1000)]) ∧
    (∀ pv i j, SafetyTaskTrace pv i = SafetyTaskTrace pv j) ∧
    pdMS_TO_TICKS 1000 = 1000 := by
  exact ⟨fun pv i => rfl, fun pv i j => rfl, rfl⟩

/-- C7: `main` ignores the result of `xTaskCreate`: its kernel-call list
and its control-flow step function are the same for every result, and it
unconditionally proceeds to `vTaskStartScheduler` — the scheduler start
appears exactly once in its calls and control is at the scheduler-start
statement after one step regardless of the creation result. -/
theorem C7_create_result_ignored :
    (∀ r t, mainKernelCalls r = mainKernelCalls t) ∧
    (∀ r t sr pc, mainStep r sr pc = mainStep t sr pc) ∧
    (∀ r, List.count Action.startScheduler (mainKernelCalls r) = 1) ∧
    (∀ r sr, mainRun r sr 1 = MainPC.atStartScheduler) := by
  refine ⟨fun r t => rfl, ?_, fun r => ?_, fun r sr => rfl⟩
  · intro r t sr pc
    cases pc <;> rfl
  · simp [mainKernelCalls, List.count_cons]

/-- C8: the behaviour of `SafetyTask` is independent of its `pvParameters`
argument: any two argument values (NULL included) yield identical traces in
every iteration, because the parameter is never read. -/
theorem C8_parameter_independence :
    ∀ (p q : PtrArg) (i : Nat), SafetyTaskTrace p i = SafetyTaskTrace q i := by
  intro p q i
  rfl

/-- C9: `main` never returns: for every result of `xTaskCreate` and whether
or not `vTaskStartScheduler` returns, the control state after any number of
steps is never at or past the `return 0;` statement — the `while (1) {}`
loop makes it unreachable. -/
theorem C9_main_never_returns :
    ∀ (r sr : Bool) (n : Nat),
      MainPC.reachedReturn (mainRun r sr n) = false := by
  intro r sr n
  induction n with
  | zero => rfl
  | succ n ih =>
      cases h : mainRun r sr n with
      | atCreate => simp [mainRun, mainStep, h, MainPC.reachedReturn]
      | atStartScheduler =>
          cases sr <;> simp [mainRun, mainStep, h, MainPC.reachedReturn]
      | inWhileLoop => simp [mainRun, mainStep, h, MainPC.reachedReturn]
      | atReturn => rw [h] at ih; simp [MainPC.reachedReturn] at ih
      | done => rw [h] at ih; simp [MainPC.reachedReturn] at ih

/-- C10: the program produces no output: neither the kernel calls of `main`
nor any iteration of `SafetyTask` contains a stdio output action, and the
total stdio output of each is the empty string. -/
theorem C10_no_stdio_output :
    (∀ r, traceOutput (mainKernelCalls r) = "") ∧
    (∀ pv i, traceOutput (SafetyTaskTrace pv i) = "") ∧
    (∀ r, (mainKernelCalls r).all (fun a => ! a.isStdioOutput) = true) ∧
    (∀ pv i, (SafetyTaskTrace pv i).all (fun a => ! a.isStdioOutput) = true) := by
  refine ⟨fun r => rfl, fun pv i => rfl, fun r => ?_, fun pv i => ?_⟩
  · simp [mainKernelCalls, Action.isStdioOutput]
  · simp [SafetyTaskTrace, SafetyTaskIter, Action.isStdioOutput]

end RtosPartition
